import Mathlib

/-
Shallow embedding of the BLE connection lifecycle manager of
src/src/bleController.ts (the most evolved revision of the file, the one
with automatic reconnection; line references below are into that revision).

JavaScript numbers that the claims reason about exactly (delays, jitter)
are modelled as rationals; byte buffers as lists of naturals; the noble
adapter's callbacks are modelled as explicit outcome parameters.
-/

namespace BLE

/-- A discovered GATT characteristic as the controller stores it:
its UUID, its optional numeric handle, and whether the underlying
object carries write / read methods (the source tests char.write and
char.read for existence before using them). -/
structure Characteristic where
  uuid : String
  handle : Option Nat
  hasWrite : Bool
  hasRead : Bool
deriving Repr, DecidableEq

/-- The mutable fields of class BLEController (bleController.ts lines
408-421) that the claims are about.  Peripherals are identified by their
address string.  The characteristics map keeps JS Map insertion order as
an association list keyed by handle-or-uuid (line 754-758). -/
structure ControllerState where
  isConnected : Bool
  peripheral : Option String
  characteristics : List (Sum Nat String × Characteristic)
  selectedCharacteristic : Option Characteristic
  targetPeripheral : Option String
  reconnectionAttempts : Nat
  maxReconnectionAttempts : Nat
  reconnectionDelay : ℚ
  maxReconnectionDelay : ℚ
  monitorActive : Bool
  isReconnecting : Bool
  autoReconnectEnabled : Bool
deriving Repr, DecidableEq

/-- The field initialisers of the class (lines 409-421). -/
def initialState : ControllerState :=
  { isConnected := false
    peripheral := none
    characteristics := []
    selectedCharacteristic := none
    targetPeripheral := none
    reconnectionAttempts := 0
    maxReconnectionAttempts := 10
    reconnectionDelay := 1000
    maxReconnectionDelay := 30000
    monitorActive := false
    isReconnecting := false
    autoReconnectEnabled := true }

/-- setAutoReconnect (lines 927-930). -/
def setAutoReconnect (s : ControllerState) (enabled : Bool) : ControllerState :=
  { s with autoReconnectEnabled := enabled }

/-- setMaxReconnectionAttempts (lines 942-945): Math.max(1, attempts). -/
def setMaxReconnectionAttempts (s : ControllerState) (attempts : Nat) : ControllerState :=
  { s with maxReconnectionAttempts := max 1 attempts }

/-- setInitialReconnectionDelay (lines 966-969): Math.max(500, delayMs).
Note the source stores the value directly into reconnectionDelay; no
separate initial-delay field exists. -/
def setInitialReconnectionDelay (s : ControllerState) (delayMs : ℚ) : ControllerState :=
  { s with reconnectionDelay := max 500 delayMs }

/-- The synchronous prologue of connect() (lines 635-637): remember the
target and zero the attempt counter before the link is attempted. -/
def connectStart (s : ControllerState) (p : String) : ControllerState :=
  { s with targetPeripheral := some p, reconnectionAttempts := 0 }

/-- The onConnect handler of connect() for the successful path (lines
639-653): mark connected, clear the reconnection-in-progress flag, zero
the attempt counter, reset the delay to the literal 1000 (line 644,
comment "Reset delay"), and start connection monitoring (line 653). -/
def onConnect (s : ControllerState) (p : String) : ControllerState :=
  { s with isConnected := true
           peripheral := some p
           isReconnecting := false
           reconnectionAttempts := 0
           reconnectionDelay := 1000
           monitorActive := true }

/-- The onDisconnect handler of connect() (lines 666-680): drop the link
state, stop monitoring, and report whether automatic reconnection is
triggered (the guard autoReconnectEnabled and not isReconnecting,
line 676). -/
def onDisconnectEvent (s : ControllerState) : ControllerState × Bool :=
  ({ s with isConnected := false, peripheral := none, monitorActive := false },
   s.autoReconnectEnabled && !s.isReconnecting)

/-- What the synchronous guard of attemptReconnection decides
(lines 881-893). -/
inductive ReconnectDecision where
  | noop
  | giveUp
  | proceed
deriving Repr, DecidableEq, BEq

/-- The guard and counter logic at the head of attemptReconnection
(lines 881-893): bail out when already reconnecting, no remembered
target, or auto-reconnect disabled; otherwise mark in progress and
increment the attempt counter; if it now exceeds the maximum, log and
stop (clearing the in-progress flag); otherwise proceed to wait and
call connect.  The source's sequential assignments (set in-progress and
increment, then clear in-progress again in the give-up branch) are
inlined into the per-branch resulting states. -/
def attemptReconnection (s : ControllerState) : ControllerState × ReconnectDecision :=
  if s.isReconnecting || s.targetPeripheral.isNone || !s.autoReconnectEnabled then
    (s, ReconnectDecision.noop)
  else if s.maxReconnectionAttempts < s.reconnectionAttempts + 1 then
    ({ s with reconnectionAttempts := s.reconnectionAttempts + 1
              isReconnecting := false }, ReconnectDecision.giveUp)
  else
    ({ s with reconnectionAttempts := s.reconnectionAttempts + 1
              isReconnecting := true }, ReconnectDecision.proceed)

/-- The catch branch of attemptReconnection after a failed connect
(lines 904-913): exponential backoff with jitter, then clear the
in-progress flag.  The jitter argument stands for Math.random() * 1000. -/
def reconnectionFailureBackoff (s : ControllerState) (jitter : ℚ) : ControllerState :=
  { s with reconnectionDelay := min (s.reconnectionDelay * 2 + jitter) s.maxReconnectionDelay
           isReconnecting := false }

/-- The guard inside the setTimeout scheduled after a failed attempt
(lines 916-920): the retry only fires when auto-reconnect is still
enabled and the controller is not connected. -/
def scheduledRetryFires (s : ControllerState) : Bool :=
  s.autoReconnectEnabled && !s.isConnected

/-- A sequence of n triggers of attemptReconnection (health-monitor
ticks, disconnect events or failed writes all funnel into the same
entry point), collecting the decision of each trigger. -/
def triggerTrace : Nat → ControllerState → List ReconnectDecision
  | 0, _ => []
  | n + 1, s =>
    (attemptReconnection s).2 :: triggerTrace n (attemptReconnection s).1

/-- disconnect() (lines 806-826): disable auto-reconnection, stop the
health monitor, and only when a peripheral is held and connected issue
an active teardown, after which the link state, target, selected
characteristic and the characteristics map are cleared.  The Bool
result records whether an active teardown was issued.  Every path
returns; no error is raised. -/
def disconnect (s : ControllerState) : ControllerState × Bool :=
  if s.peripheral.isSome && s.isConnected then
    ({ s with autoReconnectEnabled := false
              monitorActive := false
              isConnected := false
              peripheral := none
              targetPeripheral := none
              selectedCharacteristic := none
              characteristics := [] }, true)
  else
    ({ s with autoReconnectEnabled := false, monitorActive := false }, false)

/-- A peripheral as delivered by a noble discover event (lines 548-566):
the fields the scan handler reads.  Absent JS fields are none; the
handler treats present strings as truthy. -/
structure AdvPeripheral where
  address : Option String
  id : Option String
  uuid : Option String
  localName : Option String
deriving Repr, DecidableEq

/-- The identifier normalisation of the discover handler (lines
569-572): when no address is supplied, fall back to id, then uuid. -/
def normalizePeripheral (p : AdvPeripheral) : AdvPeripheral :=
  if p.address.isNone && (p.id.isSome || p.uuid.isSome) then
    { p with address := match p.id with
                        | some i => some i
                        | none => p.uuid }
  else p

/-- The identifier after normalisation, as stored on the pushed entry:
its address when set, the literal unknown otherwise. -/
def storedId (p : AdvPeripheral) : String :=
  p.address.getD "unknown"

/-- The normalised identifier of a raw discovery event (the value of
deviceId at lines 550-551 equals the stored identifier after the
normalisation at lines 569-572). -/
def deviceId (p : AdvPeripheral) : String :=
  storedId (normalizePeripheral p)

/-- Substring test on character lists, modelling String.includes. -/
def containsSub (needle : List Char) : List Char → Bool
  | [] => needle.isEmpty
  | c :: t => needle.isPrefixOf (c :: t) || containsSub needle t

/-- The early-exit filter check of the discover handler (lines 577-586):
a filter is given, the advertisement carries a local name, and the
lower-cased name contains the lower-cased filter as a substring. -/
def nameMatchesFilter (deviceFilter : Option String) (p : AdvPeripheral) : Bool :=
  match deviceFilter, p.localName with
  | some f, some n => containsSub f.toLower.toList n.toLower.toList
  | _, _ => false

/-- The discover handler of scanDevices folded over a sequence of
discovery events (lines 548-587): each event is normalised and pushed;
when the filter matches, the scan resolves early with everything
collected so far, the matching entry included.  An exhausted event list
stands for the duration timeout resolving with the collected devices. -/
def scanDevices (deviceFilter : Option String) : List AdvPeripheral → List AdvPeripheral
  | [] => []
  | p :: rest =>
    if nameMatchesFilter deviceFilter (normalizePeripheral p) then
      [normalizePeripheral p]
    else
      normalizePeripheral p :: scanDevices deviceFilter rest

/-- The allowDuplicates argument passed to noble.startScanning at
line 607: duplicate filtering is requested from the adapter. -/
def scanAllowDuplicates : Bool := false

/-- The fixed lamp control characteristic UUID (line 761). -/
def controlCharacteristicUUID : String := "b35d95c66a68437eabe70ebffd8e0661"

/-- The storage key of a characteristic (lines 754-757): its handle
when defined, otherwise a uuid-prefixed string key. -/
def charKey (c : Characteristic) : Sum Nat String :=
  match c.handle with
  | some h => Sum.inl h
  | none => Sum.inr ("uuid_" ++ c.uuid)

/-- JS Map.set on the association list: replace in place when the key
exists, append otherwise. -/
def mapSet (m : List (Sum Nat String × Characteristic)) (k : Sum Nat String)
    (c : Characteristic) : List (Sum Nat String × Characteristic) :=
  if m.any (fun kv => decide (kv.1 = k)) then
    m.map (fun kv => if kv.1 = k then (k, c) else kv)
  else
    m ++ [(k, c)]

/-- Handling of one discovered characteristic (lines 746-776): store it
under its key and auto-select it when its UUID is the lamp control
UUID. -/
def processChar (s : ControllerState) (c : Characteristic) : ControllerState :=
  { s with characteristics := mapSet s.characteristics (charKey c) c
           selectedCharacteristic :=
             if c.uuid = controlCharacteristicUUID then some c
             else s.selectedCharacteristic }

/-- One service's characteristic-discovery completion (lines 735-777):
an error is logged and contributes nothing; success folds every
characteristic into the state. -/
instance : DecidableEq (Except String (List Characteristic)) := fun
  | Except.error a, Except.error b =>
    if h : a = b then isTrue (by rw [h]) else isFalse (by intro hc; cases hc; exact h rfl)
  | Except.error _, Except.ok _ => isFalse (by intro hc; cases hc)
  | Except.ok _, Except.error _ => isFalse (by intro hc; cases hc)
  | Except.ok a, Except.ok b =>
    if h : a = b then isTrue (by rw [h]) else isFalse (by intro hc; cases hc; exact h rfl)

structure SvcDiscovery where
  uuid : String
  outcome : Except String (List Characteristic)
deriving Repr, DecidableEq

/-- Apply one service's characteristic-discovery result. -/
def processService (s : ControllerState) (sv : SvcDiscovery) : ControllerState :=
  match sv.outcome with
  | Except.error _ => s
  | Except.ok cs => cs.foldl processChar s

/-- discoverServicesAndCharacteristics for a successful service
discovery (lines 704-800): clear the previous characteristics map
(line 716), then fan characteristic discovery out to every service; the
promise resolves only once the pending counter has seen every service's
callback, so the resulting state folds in all of them. -/
def discoverServicesAndCharacteristics (s : ControllerState)
    (svcs : List SvcDiscovery) : ControllerState :=
  svcs.foldl processService { s with characteristics := [] }

/-- One write issued to the selected characteristic: the payload bytes
and the withoutResponse flag passed as the second argument of
char.write (line 1028 passes the literal false). -/
structure WriteAction where
  payload : List Nat
  withoutResponse : Bool
deriving Repr, DecidableEq

/-- Observable outcome of one facade write call: the resolved boolean,
the writes actually issued, and how many times attemptReconnection was
invoked.  Every path resolves; nothing is thrown. -/
structure WriteTrace where
  result : Bool
  actions : List WriteAction
  reconnects : Nat
deriving Repr, DecidableEq

/-- writeToSelectedCharacteristic (lines 978-1062).  The source counts
retryCount upward and permits a retry while retryCount < maxRetries
with maxRetries = 3; remaining carries maxRetries - retryCount, so a
retry is permitted exactly while remaining is positive, and the zero
equation is the same body with the two retry branches cut off (the
recursion is written with repeated recursive projections rather than a
local binding).  reconnectEffect
is the state change produced by await attemptReconnection() followed by
the fixed 1s stabilisation wait; writeSucceeds gives the callback
outcome of the n-th physical write.  On a write error the source flags
the controller disconnected (line 1039) before reconnecting. -/
def writeToSelectedCharacteristic
    (reconnectEffect : ControllerState → ControllerState)
    (writeSucceeds : Nat → Bool) (data : List Nat) :
    Nat → ControllerState → Nat → WriteTrace
  | 0, s, w =>
    if !s.isConnected || s.peripheral.isNone then
      { result := false, actions := [], reconnects := 0 }
    else
      match s.selectedCharacteristic with
      | none => { result := false, actions := [], reconnects := 0 }
      | some c =>
        if !c.hasWrite then
          { result := false, actions := [], reconnects := 0 }
        else if writeSucceeds w then
          { result := true, actions := [{ payload := data, withoutResponse := false }],
            reconnects := 0 }
        else
          { result := false, actions := [{ payload := data, withoutResponse := false }],
            reconnects := 0 }
  | r + 1, s, w =>
    if !s.isConnected || s.peripheral.isNone then
      if s.autoReconnectEnabled && s.targetPeripheral.isSome then
        { result := (writeToSelectedCharacteristic reconnectEffect writeSucceeds data r
                       (reconnectEffect s) w).result
          actions := (writeToSelectedCharacteristic reconnectEffect writeSucceeds data r
                       (reconnectEffect s) w).actions
          reconnects := (writeToSelectedCharacteristic reconnectEffect writeSucceeds data r
                       (reconnectEffect s) w).reconnects + 1 }
      else
        { result := false, actions := [], reconnects := 0 }
    else
      match s.selectedCharacteristic with
      | none => { result := false, actions := [], reconnects := 0 }
      | some c =>
        if !c.hasWrite then
          { result := false, actions := [], reconnects := 0 }
        else if writeSucceeds w then
          { result := true, actions := [{ payload := data, withoutResponse := false }],
            reconnects := 0 }
        else if s.autoReconnectEnabled && s.targetPeripheral.isSome then
          { result := (writeToSelectedCharacteristic reconnectEffect writeSucceeds data r
                         (reconnectEffect { s with isConnected := false }) (w + 1)).result
            actions := { payload := data, withoutResponse := false } ::
                       (writeToSelectedCharacteristic reconnectEffect writeSucceeds data r
                         (reconnectEffect { s with isConnected := false }) (w + 1)).actions
            reconnects := (writeToSelectedCharacteristic reconnectEffect writeSucceeds data r
                         (reconnectEffect { s with isConnected := false }) (w + 1)).reconnects + 1 }
        else
          { result := false, actions := [{ payload := data, withoutResponse := false }],
            reconnects := 0 }

/-- turnLampOn (lines 1068-1083): write the single byte 0x01 through the
retrying write, starting at retryCount = 0 (remaining = 3); the
surrounding try/catch resolves false instead of raising. -/
def turnLampOn (reconnectEffect : ControllerState → ControllerState)
    (writeSucceeds : Nat → Bool) (s : ControllerState) : WriteTrace :=
  writeToSelectedCharacteristic reconnectEffect writeSucceeds [0x01] 3 s 0

/-- turnLampOff (lines 1089-1104): write the single byte 0x00. -/
def turnLampOff (reconnectEffect : ControllerState → ControllerState)
    (writeSucceeds : Nat → Bool) (s : ControllerState) : WriteTrace :=
  writeToSelectedCharacteristic reconnectEffect writeSucceeds [0x00] 3 s 0

/-- Outcome of the single char.read callback. -/
inductive ReadOutcome where
  | err : String → ReadOutcome
  | ok : List Nat → ReadOutcome
deriving Repr, DecidableEq

/-- readLampState (lines 1157-1200): resolve null when not connected, no
characteristic is selected, the characteristic has no read method, the
read errors, or the data is empty; otherwise resolve whether the first
byte equals 0x01.  Exactly one read is attempted and every path
resolves. -/
def readLampState (s : ControllerState) (o : ReadOutcome) : Option Bool :=
  if !s.isConnected || s.peripheral.isNone then none
  else
    match s.selectedCharacteristic with
    | none => none
    | some c =>
      if !c.hasRead then none
      else
        match o with
        | ReadOutcome.err _ => none
        | ReadOutcome.ok [] => none
        | ReadOutcome.ok (b :: _) => some (b == 1)

/-- The behaviour claim C10 describes, written from the claim's words:
null whenever the controller is not connected, no characteristic is
selected, the selected characteristic has no read method, the read
errors, or the read returns empty data; on a successful non-empty read,
true exactly when the first byte is 0x01, later bytes ignored. -/
def readLampStateClaim (s : ControllerState) (o : ReadOutcome) : Option Bool :=
  let connected := s.isConnected && s.peripheral.isSome
  let readable := match s.selectedCharacteristic with
                  | some c => c.hasRead
                  | none => false
  match o with
  | ReadOutcome.err _ => none
  | ReadOutcome.ok data =>
    if connected && readable && !data.isEmpty then
      some (data.headD 0 == 1)
    else none

/-- A concrete lamp-control characteristic for witnesses. -/
def sampleCharacteristic : Characteristic :=
  { uuid := controlCharacteristicUUID, handle := some 33, hasWrite := true, hasRead := true }

/-- A concrete healthy connected state for witnesses. -/
def connectedState : ControllerState :=
  { isConnected := true
    peripheral := some "aa:bb"
    characteristics := [(Sum.inl 33, sampleCharacteristic)]
    selectedCharacteristic := some sampleCharacteristic
    targetPeripheral := some "aa:bb"
    reconnectionAttempts := 0
    maxReconnectionAttempts := 10
    reconnectionDelay := 1000
    maxReconnectionDelay := 30000
    monitorActive := true
    isReconnecting := false
    autoReconnectEnabled := true }

/-- A reconnection effect that succeeds: the link to the remembered
target is re-established. -/
def reconnectSucceeds : ControllerState → ControllerState :=
  fun s => { s with isConnected := true, peripheral := s.targetPeripheral }

/-- A state whose attempt counter has passed the ceiling. -/
def exhaustedState : ControllerState :=
  { connectedState with isConnected := false, peripheral := none, reconnectionAttempts := 11 }

/-- A discovery event with no address and a bare id. -/
def dupEvent : AdvPeripheral :=
  { address := none, id := some "aa:bb", uuid := none, localName := none }

/-- A service whose characteristic discovery succeeds with the lamp
characteristic. -/
def svcOkSample : SvcDiscovery :=
  { uuid := "s1", outcome := Except.ok [sampleCharacteristic] }

/-- A second, distinct discovery event carrying an address and a
matching name. -/
def otherEvent : AdvPeripheral :=
  { address := some "cc:dd", id := none, uuid := none, localName := some "SchneiderLamp" }

end BLE

namespace BLE

theorem readLampState_eq_spec (s : ControllerState) (o : ReadOutcome) :
    readLampState s o = readLampStateClaim s o := by
  obtain ⟨conn, per, chars, sel, tgt, ra, mra, rd, mrd, mon, ir, ar⟩ := s
  rcases o with m | data
  · cases conn <;> rcases per with _ | p <;> rcases sel with _ | c <;>
      simp [readLampState, readLampStateClaim] <;>
      cases c.hasRead <;> simp
  · rcases data with _ | ⟨b, rest⟩ <;>
      cases conn <;> rcases per with _ | p <;> rcases sel with _ | c <;>
        simp [readLampState, readLampStateClaim] <;>
        cases c.hasRead <;> simp

theorem attemptReconnection_max_eq (s : ControllerState) :
    (attemptReconnection s).1.maxReconnectionAttempts = s.maxReconnectionAttempts := by
  unfold attemptReconnection
  split
  · rfl
  · split <;> rfl

theorem attemptReconnection_attempts_le (s : ControllerState) :
    s.reconnectionAttempts ≤ (attemptReconnection s).1.reconnectionAttempts := by
  unfold attemptReconnection
  split
  · exact Nat.le_refl _
  · split <;> exact Nat.le_succ _

theorem attemptReconnection_ne_proceed (s : ControllerState)
    (h : s.maxReconnectionAttempts < s.reconnectionAttempts) :
    ¬ (attemptReconnection s).2 = ReconnectDecision.proceed := by
  unfold attemptReconnection
  split
  · simp
  · split
    · simp
    · rename_i hle
      exact absurd h (by omega)

end BLE

namespace BLE

theorem writeToSelectedCharacteristic_actions_le
    (re : ControllerState → ControllerState) (oc : Nat → Bool) (data : List Nat) :
    ∀ (remaining : Nat) (s : ControllerState) (w : Nat),
      (writeToSelectedCharacteristic re oc data remaining s w).actions.length ≤ remaining + 1 := by
  intro remaining
  induction remaining with
  | zero =>
    intro s w
    unfold writeToSelectedCharacteristic
    split
    · simp
    · split
      · simp
      · split
        · simp
        · split
          · simp
          · simp
  | succ r ih =>
    intro s w
    unfold writeToSelectedCharacteristic
    split
    · split
      · simpa using Nat.le_succ_of_le (ih (re s) w)
      · simp
    · split
      · simp
      · split
        · simp
        · split
          · simp
          · split
            · simpa using Nat.succ_le_succ (ih (re { s with isConnected := false }) (w + 1))
            · simp

theorem writeToSelectedCharacteristic_fail_false
    (re : ControllerState → ControllerState) (data : List Nat) :
    ∀ (remaining : Nat) (s : ControllerState) (w : Nat),
      (writeToSelectedCharacteristic re (fun _ => false) data remaining s w).result = false := by
  intro remaining
  induction remaining with
  | zero =>
    intro s w
    unfold writeToSelectedCharacteristic
    split
    · rfl
    · split
      · rfl
      · split
        · rfl
        · split
          · simp_all
          · rfl
  | succ r ih =>
    intro s w
    unfold writeToSelectedCharacteristic
    split
    · split
      · simpa using ih (re s) w
      · rfl
    · split
      · rfl
      · split
        · rfl
        · split
          · simp_all
          · split
            · simpa using ih (re { s with isConnected := false }) (w + 1)
            · rfl

theorem writeToSelectedCharacteristic_actions_const
    (re : ControllerState → ControllerState) (oc : Nat → Bool) (data : List Nat) :
    ∀ (remaining : Nat) (s : ControllerState) (w : Nat) (a : WriteAction),
      a ∈ (writeToSelectedCharacteristic re oc data remaining s w).actions →
      a = { payload := data, withoutResponse := false } := by
  intro remaining
  induction remaining with
  | zero =>
    intro s w a ha
    unfold writeToSelectedCharacteristic at ha
    split at ha
    · simp at ha
    · split at ha
      · simp at ha
      · split at ha
        · simp at ha
        · split at ha
          · simpa using ha
          · simpa using ha
  | succ r ih =>
    intro s w a ha
    unfold writeToSelectedCharacteristic at ha
    split at ha
    · split at ha
      · exact ih (re s) w a (by simpa using ha)
      · simp at ha
    · split at ha
      · simp at ha
      · split at ha
        · simp at ha
        · split at ha
          · simpa using ha
          · split at ha
            · rcases (by simpa using ha : a = _ ∨ _) with rfl | hmem
              · rfl
              · exact ih (re { s with isConnected := false }) (w + 1) a hmem
            · simpa using ha

end BLE

namespace BLE

theorem scanDevices_ids_subset (f : Option String) :
    ∀ (events : List AdvPeripheral) (x : String),
      x ∈ (scanDevices f events).map storedId → x ∈ events.map deviceId := by
  intro events
  induction events with
  | nil =>
    intro x hx
    simp [scanDevices] at hx
  | cons p rest ih =>
    intro x hx
    unfold scanDevices at hx
    simp only [List.map_cons, List.mem_cons]
    split at hx
    · simp only [List.map_cons, List.map_nil, List.mem_singleton] at hx
      exact Or.inl hx
    · simp only [List.map_cons, List.mem_cons] at hx
      rcases hx with hx | hx
      · exact Or.inl hx
      · exact Or.inr (ih x hx)

theorem mem_keys_mapSet (m : List (Sum Nat String × Characteristic))
    (k : Sum Nat String) (c : Characteristic) :
    k ∈ (mapSet m k c).map Prod.fst := by
  unfold mapSet
  split
  · rename_i hany
    rw [List.any_eq_true] at hany
    obtain ⟨kv, hkv, hk⟩ := hany
    rw [decide_eq_true_eq] at hk
    exact List.mem_map.mpr ⟨(k, c), List.mem_map.mpr ⟨kv, hkv, by simp [hk]⟩, rfl⟩
  · rw [List.map_append]
    exact List.mem_append_right _ (by simp)

theorem keys_mono_mapSet (m : List (Sum Nat String × Characteristic))
    (k : Sum Nat String) (c : Characteristic) (x : Sum Nat String)
    (hx : x ∈ m.map Prod.fst) : x ∈ (mapSet m k c).map Prod.fst := by
  unfold mapSet
  split
  · obtain ⟨kv, hkv, rfl⟩ := List.mem_map.mp hx
    by_cases hk : kv.1 = k
    · exact List.mem_map.mpr ⟨(k, c), List.mem_map.mpr ⟨kv, hkv, by simp [hk]⟩, by simp [hk]⟩
    · exact List.mem_map.mpr ⟨kv, List.mem_map.mpr ⟨kv, hkv, by simp [hk]⟩, rfl⟩
  · rw [List.map_append]
    exact List.mem_append_left _ hx

theorem keys_mono_foldl_processChar (cs : List Characteristic) :
    ∀ (s : ControllerState) (x : Sum Nat String),
      x ∈ s.characteristics.map Prod.fst →
      x ∈ ((cs.foldl processChar s).characteristics.map Prod.fst) := by
  induction cs with
  | nil => intro s x hx; exact hx
  | cons c0 rest ih =>
    intro s x hx
    exact ih (processChar s c0) x (keys_mono_mapSet _ _ _ _ hx)

theorem mem_keys_foldl_processChar (cs : List Characteristic) :
    ∀ (s : ControllerState) (c : Characteristic), c ∈ cs →
      charKey c ∈ ((cs.foldl processChar s).characteristics.map Prod.fst) := by
  induction cs with
  | nil => intro s c hc; cases hc
  | cons c0 rest ih =>
    intro s c hc
    rcases List.mem_cons.mp hc with rfl | hc
    · exact keys_mono_foldl_processChar rest _ _ (mem_keys_mapSet _ _ _)
    · exact ih _ c hc

theorem keys_mono_processService (sv : SvcDiscovery) (s : ControllerState)
    (x : Sum Nat String) (hx : x ∈ s.characteristics.map Prod.fst) :
    x ∈ ((processService s sv).characteristics.map Prod.fst) := by
  unfold processService
  rcases sv with ⟨u, outc⟩
  rcases outc with msg | cs
  · exact hx
  · exact keys_mono_foldl_processChar cs s x hx

theorem keys_mono_foldl_processService (svcs : List SvcDiscovery) :
    ∀ (s : ControllerState) (x : Sum Nat String),
      x ∈ s.characteristics.map Prod.fst →
      x ∈ ((svcs.foldl processService s).characteristics.map Prod.fst) := by
  induction svcs with
  | nil => intro s x hx; exact hx
  | cons sv0 rest ih =>
    intro s x hx
    exact ih (processService s sv0) x (keys_mono_processService sv0 s x hx)

theorem mem_keys_foldl_processService (svcs : List SvcDiscovery) :
    ∀ (s : ControllerState) (sv : SvcDiscovery) (cs : List Characteristic)
      (c : Characteristic), sv ∈ svcs → sv.outcome = Except.ok cs → c ∈ cs →
      charKey c ∈ ((svcs.foldl processService s).characteristics.map Prod.fst) := by
  induction svcs with
  | nil => intro s sv cs c hsv; cases hsv
  | cons sv0 rest ih =>
    intro s sv cs c hsv hout hc
    rcases List.mem_cons.mp hsv with rfl | hsv
    · have hbase : charKey c ∈ ((processService s sv).characteristics.map Prod.fst) := by
        unfold processService
        rw [hout]
        exact mem_keys_foldl_processChar cs s c hc
      exact keys_mono_foldl_processService rest _ _ hbase
    · exact ih _ sv cs c hsv hout hc

end BLE

namespace BLE

theorem scanDevices_nodup (f : Option String) :
    ∀ events : List AdvPeripheral, (events.map deviceId).Nodup →
      ((scanDevices f events).map storedId).Nodup := by
  intro events
  induction events with
  | nil => intro h; simp [scanDevices]
  | cons p rest ih =>
    intro h
    rw [List.map_cons, List.nodup_cons] at h
    unfold scanDevices
    split
    · simp
    · rw [List.map_cons, List.nodup_cons]
      exact ⟨fun hx => h.1 (scanDevices_ids_subset f rest _ hx), ih h.2⟩

theorem attemptReconnection_trace_no_proceed :
    ∀ (n : Nat) (s : ControllerState),
      s.maxReconnectionAttempts < s.reconnectionAttempts →
      ((triggerTrace n s).all fun d => !(d == ReconnectDecision.proceed)) = true := by
  intro n
  induction n with
  | zero => intro s hs; rfl
  | succ n ih =>
    intro s hs
    have hmax := attemptReconnection_max_eq s
    have hle := attemptReconnection_attempts_le s
    have h2 : (attemptReconnection s).1.maxReconnectionAttempts <
        (attemptReconnection s).1.reconnectionAttempts := by omega
    have hd := attemptReconnection_ne_proceed s hs
    rw [triggerTrace, List.all_cons, Bool.and_eq_true]
    refine ⟨?_, ih _ h2⟩
    cases hdd : (attemptReconnection s).2
    · rfl
    · rfl
    · exact absurd hdd hd

/-- C1 (amended): on every failed reconnection attempt the next delay is
min of twice the current delay plus the jitter and the fixed 30000 ms
maximum; while the current delay does not exceed the maximum, successive
delays are non-decreasing and capped at 30000 ms; immediately after a
successful connect the delay is reset to the fixed default of 1000 ms
(not to the value configured through setInitialReconnectionDelay) and
the attempt counter to 0. -/
theorem backoff_monotone_capped_and_reset (s : ControllerState) (j : ℚ) (p : String)
    (hj0 : 0 ≤ j) (hj1 : j < 1000) (hd : 0 ≤ s.reconnectionDelay)
    (hcap : s.reconnectionDelay ≤ s.maxReconnectionDelay)
    (hmax : s.maxReconnectionDelay = 30000) :
    (reconnectionFailureBackoff s j).reconnectionDelay
      = min (s.reconnectionDelay * 2 + j) 30000 ∧
    s.reconnectionDelay ≤ (reconnectionFailureBackoff s j).reconnectionDelay ∧
    (reconnectionFailureBackoff s j).reconnectionDelay ≤ 30000 ∧
    (onConnect s p).reconnectionDelay = 1000 ∧
    (onConnect s p).reconnectionAttempts = 0 := by
  refine ⟨?_, ?_, ?_, rfl, rfl⟩
  · show min (s.reconnectionDelay * 2 + j) s.maxReconnectionDelay
        = min (s.reconnectionDelay * 2 + j) 30000
    rw [hmax]
  · show s.reconnectionDelay ≤ min (s.reconnectionDelay * 2 + j) s.maxReconnectionDelay
    exact le_min (by linarith) hcap
  · show min (s.reconnectionDelay * 2 + j) s.maxReconnectionDelay ≤ 30000
    rw [hmax]
    exact min_le_right _ _

/-- Witness for the C1 theorem at a concrete healthy state and jitter 250. -/
theorem backoff_monotone_capped_and_reset_witness :
    (0:ℚ) ≤ 250 ∧ (250:ℚ) < 1000 ∧ (0:ℚ) ≤ connectedState.reconnectionDelay ∧
    connectedState.reconnectionDelay ≤ connectedState.maxReconnectionDelay ∧
    connectedState.maxReconnectionDelay = 30000 ∧
    ((reconnectionFailureBackoff connectedState 250).reconnectionDelay
        = min (connectedState.reconnectionDelay * 2 + 250) 30000 ∧
     connectedState.reconnectionDelay ≤ (reconnectionFailureBackoff connectedState 250).reconnectionDelay ∧
     (reconnectionFailureBackoff connectedState 250).reconnectionDelay ≤ 30000 ∧
     (onConnect connectedState "aa:bb").reconnectionDelay = 1000 ∧
     (onConnect connectedState "aa:bb").reconnectionAttempts = 0) :=
  ⟨by norm_num, by norm_num, by norm_num [connectedState], by norm_num [connectedState],
   by norm_num [connectedState],
   backoff_monotone_capped_and_reset connectedState 250 "aa:bb" (by norm_num) (by norm_num)
     (by norm_num [connectedState]) (by norm_num [connectedState]) (by norm_num [connectedState])⟩

/-- C1 counterexample: configure the initial reconnection delay to 5000
ms; after a successful connect the delay is 1000, not the configured
value, so the delay is not reset to the value set by
setInitialReconnectionDelay. -/
theorem reconnectionDelay_reset_counterexample :
    (onConnect (connectStart (setInitialReconnectionDelay initialState 5000) "aa:bb")
        "aa:bb").reconnectionDelay
      ≠ (setInitialReconnectionDelay initialState 5000).reconnectionDelay := by
  decide

/-- C2: once the attempt counter exceeds maxReconnectionAttempts, any
number of further triggers of the Reconnection Supervisor never reach
the proceed stage (no connect is issued; each trigger is a no-op or an
immediate give-up), and an explicit connect() re-arms by resetting the
attempt counter to 0. -/
theorem attempt_ceiling_given_up (s : ControllerState) (p : String) (n : Nat)
    (h : s.maxReconnectionAttempts < s.reconnectionAttempts) :
    ((triggerTrace n s).all fun d => !(d == ReconnectDecision.proceed)) = true ∧
    (connectStart s p).reconnectionAttempts = 0 :=
  ⟨attemptReconnection_trace_no_proceed n s h, rfl⟩

/-- Witness for the C2 theorem: a state with 11 attempts against a
maximum of 10, four further triggers. -/
theorem attempt_ceiling_given_up_witness :
    exhaustedState.maxReconnectionAttempts < exhaustedState.reconnectionAttempts ∧
    (((triggerTrace 4 exhaustedState).all fun d => !(d == ReconnectDecision.proceed)) = true ∧
     (connectStart exhaustedState "aa:bb").reconnectionAttempts = 0) :=
  ⟨by decide, attempt_ceiling_given_up exhaustedState "aa:bb" 4 (by decide)⟩

/-- C3: the single-flight guard of attemptReconnection: a trigger in a
state already reconnecting changes nothing and decides noop; and the
in-progress flag after any trigger is set exactly when the trigger
proceeded or it was already set, so a concurrent second trigger during
an attempt is a no-op. -/
theorem reconnection_single_flight (s t : ControllerState) :
    attemptReconnection { s with isReconnecting := true } =
      ({ s with isReconnecting := true }, ReconnectDecision.noop) ∧
    (attemptReconnection t).1.isReconnecting =
      (((attemptReconnection t).2 == ReconnectDecision.proceed) || t.isReconnecting) := by
  constructor
  · unfold attemptReconnection
    simp
  · have hnp : (ReconnectDecision.noop == ReconnectDecision.proceed) = false := rfl
    have hgp : (ReconnectDecision.giveUp == ReconnectDecision.proceed) = false := rfl
    have hpp : (ReconnectDecision.proceed == ReconnectDecision.proceed) = true := rfl
    unfold attemptReconnection
    split
    · rename_i hg
      simp [hnp]
    · rename_i hg
      simp only [Bool.or_eq_true, Bool.not_eq_true'] at hg
      split
      · simp [hgp]
        simp_all
      · simp [hpp]

end BLE

namespace BLE

/-- C4 (amended): the facade write makes at most remaining + 1 physical
write attempts (so at most 4 from the initial call, where remaining =
maxRetries = 3 and retryCount = 0); when every physical write fails the
call resolves false rather than raising; and readLampState resolves
null on a read error after its single attempt, with no retry. -/
theorem write_retry_bounded_no_raise
    (re : ControllerState → ControllerState) (oc : Nat → Bool) (data : List Nat)
    (remaining w : Nat) (s : ControllerState) (e : String) :
    (writeToSelectedCharacteristic re oc data remaining s w).actions.length ≤ remaining + 1 ∧
    (writeToSelectedCharacteristic re (fun _ => false) data remaining s w).result = false ∧
    readLampState s (ReadOutcome.err e) = none :=
  ⟨writeToSelectedCharacteristic_actions_le re oc data remaining s w,
   writeToSelectedCharacteristic_fail_false re data remaining s w,
   (readLampState_eq_spec s (ReadOutcome.err e)).trans rfl⟩

/-- C4 counterexample: with a connected controller, successful
reconnections and every physical write failing, turnLampOn issues four
write attempts, not at most three. -/
theorem write_retry_four_attempts_counterexample :
    (turnLampOn reconnectSucceeds (fun _ => false) connectedState).actions.length = 4 ∧
    ¬ ((turnLampOn reconnectSucceeds (fun _ => false) connectedState).actions.length ≤ 3) := by
  decide

/-- C5 (amended): disconnect() clears the auto-reconnect flag; with the
flag cleared, any new trigger of the Reconnection Supervisor is a no-op
and the scheduled follow-up retry does not fire; a subsequent connect()
leaves the flag cleared, so a later link loss does not trigger
reconnection; only setAutoReconnect(true) re-arms it. -/
theorem manual_disconnect_disables_reconnection (s t : ControllerState) (p : String) :
    (disconnect s).1.autoReconnectEnabled = false ∧
    (attemptReconnection { t with autoReconnectEnabled := false }).2 = ReconnectDecision.noop ∧
    scheduledRetryFires { t with autoReconnectEnabled := false } = false ∧
    (connectStart (disconnect s).1 p).autoReconnectEnabled = false ∧
    (onDisconnectEvent (onConnect (connectStart (disconnect s).1 p) p)).2 = false ∧
    (setAutoReconnect t true).autoReconnectEnabled = true := by
  refine ⟨?_, ?_, ?_, ?_, ?_, rfl⟩
  · unfold disconnect
    split <;> rfl
  · unfold attemptReconnection
    simp
  · simp [scheduledRetryFires]
  · unfold disconnect connectStart
    split <;> rfl
  · unfold disconnect connectStart onConnect onDisconnectEvent
    split <;> rfl

/-- C5 counterexample: after a manual disconnect followed by a fresh
connect, a link loss does not trigger the Reconnection Supervisor,
because connect() does not re-enable the auto-reconnect flag. -/
theorem connect_does_not_rearm_counterexample :
    ¬ ((onDisconnectEvent (onConnect (connectStart (disconnect connectedState).1 "aa:bb")
        "aa:bb")).2 = true) := by
  decide

/-- C6 (amended): the scan handler itself appends one entry per
discovery event, so its output has no duplicate normalised identifiers
whenever the incoming events carry distinct normalised identifiers; the
output never exceeds the number of events; duplicate suppression is
requested from the adapter by passing allowDuplicates = false to
startScanning. -/
theorem scan_nodup_under_distinct_events (f : Option String) (events : List AdvPeripheral)
    (h : (events.map deviceId).Nodup) :
    ((scanDevices f events).map storedId).Nodup ∧
    (scanDevices f events).length ≤ events.length ∧
    scanAllowDuplicates = false := by
  refine ⟨scanDevices_nodup f events h, ?_, rfl⟩
  clear h
  induction events with
  | nil => simp [scanDevices]
  | cons p rest ih =>
    unfold scanDevices
    split
    · simp
    · simpa using Nat.succ_le_succ ih

/-- Witness for the C6 theorem on two events with distinct normalised
identifiers and no filter. -/
theorem scan_nodup_under_distinct_events_witness :
    (([dupEvent, otherEvent].map deviceId).Nodup) ∧
    (((scanDevices none [dupEvent, otherEvent]).map storedId).Nodup ∧
     (scanDevices none [dupEvent, otherEvent]).length ≤
       ([dupEvent, otherEvent] : List AdvPeripheral).length ∧
     scanAllowDuplicates = false) :=
  ⟨by decide, scan_nodup_under_distinct_events none [dupEvent, otherEvent] (by decide)⟩

/-- C6 counterexample: the same identifier discovered twice yields two
output entries with the same normalised identifier: the output is not
duplicate-free and its length exceeds the number of distinct
identifiers. -/
theorem scan_duplicate_counterexample :
    ¬ (((scanDevices none [dupEvent, dupEvent]).map storedId).Nodup) ∧
    (scanDevices none [dupEvent, dupEvent]).length = 2 ∧
    ([dupEvent, dupEvent].map deviceId).dedup.length = 1 := by
  refine ⟨by decide, by decide, by decide⟩

/-- C7 (amended): every write the turnLampOn facade issues carries
exactly the single byte 0x01 and every write of turnLampOff exactly the
single byte 0x00, and each is issued with the withoutResponse flag set
to false, that is as an acknowledged write request (the code comment
describes it as write-without-response, but false is passed as the
withoutResponse argument). -/
theorem lamp_payloads_and_write_mode (re : ControllerState → ControllerState)
    (oc : Nat → Bool) (s : ControllerState) :
    (turnLampOn re oc s).actions =
      List.replicate (turnLampOn re oc s).actions.length
        { payload := [0x01], withoutResponse := false } ∧
    (turnLampOff re oc s).actions =
      List.replicate (turnLampOff re oc s).actions.length
        { payload := [0x00], withoutResponse := false } :=
  ⟨List.eq_replicate_of_mem
     (fun _ ha => writeToSelectedCharacteristic_actions_const re oc [0x01] 3 s 0 _ ha),
   List.eq_replicate_of_mem
     (fun _ ha => writeToSelectedCharacteristic_actions_const re oc [0x00] 3 s 0 _ ha)⟩

/-- C7 counterexample: a successful turnLampOn issues exactly one write
whose withoutResponse flag is false, not the write-without-response
(fire-and-forget) mode the claim states. -/
theorem write_with_response_counterexample :
    ((turnLampOn reconnectSucceeds (fun _ => true) connectedState).actions.map
        WriteAction.withoutResponse) = [false] ∧
    ¬ (((turnLampOn reconnectSucceeds (fun _ => true) connectedState).actions.map
        WriteAction.withoutResponse) = [true]) := by
  refine ⟨by decide, by decide⟩

/-- C8: a characteristic-discovery error for one service leaves the
result exactly as if that service were absent (it contributes zero
characteristics and does not abort the others); the prior per-connection
characteristics map is cleared, so the result does not depend on it; and
every characteristic of every succeeding service is folded into the
stored set before the operation resolves (join on all services). -/
theorem discovery_join_on_all (s : ControllerState)
    (m : List (Sum Nat String × Characteristic))
    (a b svcs : List SvcDiscovery) (u e : String)
    (sv : SvcDiscovery) (cs : List Characteristic) (c : Characteristic)
    (hsv : sv ∈ svcs) (hout : sv.outcome = Except.ok cs) (hc : c ∈ cs) :
    discoverServicesAndCharacteristics s
        (a ++ { uuid := u, outcome := Except.error e } :: b) =
      discoverServicesAndCharacteristics s (a ++ b) ∧
    discoverServicesAndCharacteristics { s with characteristics := m } svcs =
      discoverServicesAndCharacteristics s svcs ∧
    charKey c ∈ ((discoverServicesAndCharacteristics s svcs).characteristics.map Prod.fst) := by
  refine ⟨?_, rfl, mem_keys_foldl_processService svcs _ sv cs c hsv hout hc⟩
  unfold discoverServicesAndCharacteristics
  rw [List.foldl_append, List.foldl_cons, List.foldl_append]
  rfl

/-- Witness for the C8 theorem on a one-service list containing the
lamp characteristic, a failing service, and a non-empty prior map. -/
theorem discovery_join_on_all_witness :
    svcOkSample ∈ [svcOkSample] ∧
    svcOkSample.outcome = Except.ok [sampleCharacteristic] ∧
    sampleCharacteristic ∈ [sampleCharacteristic] ∧
    (discoverServicesAndCharacteristics initialState
        ([] ++ { uuid := "s2", outcome := Except.error "boom" } :: [svcOkSample]) =
      discoverServicesAndCharacteristics initialState ([] ++ [svcOkSample]) ∧
     discoverServicesAndCharacteristics
        { initialState with characteristics := [(Sum.inl 5, sampleCharacteristic)] }
        [svcOkSample] =
      discoverServicesAndCharacteristics initialState [svcOkSample] ∧
     charKey sampleCharacteristic ∈
       ((discoverServicesAndCharacteristics initialState [svcOkSample]).characteristics.map
         Prod.fst)) :=
  ⟨by decide, rfl, by decide,
   discovery_join_on_all initialState [(Sum.inl 5, sampleCharacteristic)] [] [svcOkSample]
     [svcOkSample] "s2" "boom" svcOkSample [sampleCharacteristic] sampleCharacteristic
     (by decide) rfl (by decide)⟩

/-- C9: disconnect is idempotent and error-free: the state is
Disconnected after the first call and after the second, the second call
changes nothing and issues no teardown; an active teardown is issued
exactly when a peripheral is held and connected; the health monitor is
always stopped; and on an actual teardown the selected characteristic
and the characteristics map are cleared.  The well-formedness
hypothesis states that a connected controller holds a peripheral, which
every reachable state satisfies. -/
theorem disconnect_idempotent (s : ControllerState)
    (hwf : s.isConnected = true → s.peripheral.isSome = true) :
    (disconnect s).1.isConnected = false ∧
    (disconnect (disconnect s).1).1.isConnected = false ∧
    (disconnect (disconnect s).1).1 = (disconnect s).1 ∧
    (disconnect s).2 = (s.peripheral.isSome && s.isConnected) ∧
    (disconnect (disconnect s).1).2 = false ∧
    (disconnect s).1.monitorActive = false ∧
    (disconnect s).1.selectedCharacteristic =
      cond (s.peripheral.isSome && s.isConnected) none s.selectedCharacteristic ∧
    (disconnect s).1.characteristics =
      cond (s.peripheral.isSome && s.isConnected) [] s.characteristics := by
  obtain ⟨conn, per, chars, sel, tgt, ra, mra, rd, mrd, mon, ir, ar⟩ := s
  cases conn <;> rcases per with _ | p <;> simp_all [disconnect]

/-- Witness for the C9 theorem at a concrete connected state. -/
theorem disconnect_idempotent_witness :
    (connectedState.isConnected = true → connectedState.peripheral.isSome = true) ∧
    ((disconnect connectedState).1.isConnected = false ∧
     (disconnect (disconnect connectedState).1).1.isConnected = false ∧
     (disconnect (disconnect connectedState).1).1 = (disconnect connectedState).1 ∧
     (disconnect connectedState).2 =
       (connectedState.peripheral.isSome && connectedState.isConnected) ∧
     (disconnect (disconnect connectedState).1).2 = false ∧
     (disconnect connectedState).1.monitorActive = false ∧
     (disconnect connectedState).1.selectedCharacteristic =
       cond (connectedState.peripheral.isSome && connectedState.isConnected) none
         connectedState.selectedCharacteristic ∧
     (disconnect connectedState).1.characteristics =
       cond (connectedState.peripheral.isSome && connectedState.isConnected) []
         connectedState.characteristics) :=
  ⟨by decide, disconnect_idempotent connectedState (by decide)⟩

/-- C10: readLampState agrees everywhere with the behaviour the claim
describes: it is a total function (never rejects), null in each of the
five failure situations, and on a successful non-empty read it is true
exactly when the first byte is 0x01, ignoring later bytes. -/
theorem readLampState_matches_claim (s : ControllerState) (o : ReadOutcome) :
    readLampState s o = readLampStateClaim s o :=
  readLampState_eq_spec s o

end BLE
